import Mathlib

/-!
Shallow embedding of the noveum-ai-gateway provider/pipeline/telemetry core,
translated from the Rust sources under src/, together with theorems settling
the frozen claims about the natural-language specification.

Conventions of the embedding:
* `serde_json::Value` is modelled by the inductive `Json`; JSON numbers are
  carried as exact rationals (`Rat`), which is faithful for the structural
  properties proved here (no floating-point rounding is relevant to any claim).
* `http::HeaderMap` is modelled by an association list of lowercase header
  names to string values (`Headers`); `HeaderMap::insert` replaces an existing
  entry for the name or appends a new one, `HeaderMap::get` returns the first
  entry for the name.
* fallible Rust functions returning `Result<T, AppError>` become
  `Except AppError T`.
* sources of nondeterminism (current time, generated UUIDs, the value left in
  a thread-local slot) are passed as explicit parameters.
-/

/-- Model of `serde_json::Value`. -/
inductive Json where
  | null : Json
  | bool (b : Bool) : Json
  | num (q : Rat) : Json
  | str (s : String) : Json
  | arr (elems : List Json) : Json
  | obj (fields : List (String × Json)) : Json

namespace Json

/-- `Value::get(key)` — field lookup, `None` on non-objects. -/
def get (j : Json) (key : String) : Option Json :=
  match j with
  | .obj fields => (fields.find? (fun f => f.1 = key)).map (fun f => f.2)
  | _ => none

/-- `Value::as_str()`. -/
def asStr (j : Json) : Option String :=
  match j with
  | .str s => some s
  | _ => none

/-- `Value::as_array()`. -/
def asArr (j : Json) : Option (List Json) :=
  match j with
  | .arr elems => some elems
  | _ => none

/-- `Value::as_bool()`. -/
def asBool (j : Json) : Option Bool :=
  match j with
  | .bool b => some b
  | _ => none

/-- `Value::as_u64()` — succeeds exactly on non-negative integral numbers. -/
def asU64 (j : Json) : Option Nat :=
  match j with
  | .num q => if q.den = 1 ∧ 0 ≤ q.num then some q.num.toNat else none
  | _ => none

/-- `Value::as_f64()` (numeric value, carried exactly). -/
def asF64 (j : Json) : Option Rat :=
  match j with
  | .num q => some q
  | _ => none

/-- `value[key]` read-only indexing: missing key or non-object yields `Null`. -/
def index (j : Json) (key : String) : Json :=
  (j.get key).getD .null

/-- `value[key] = v` on an object: replace an existing field in place or
append a new one (non-objects are left unchanged; the code only assigns
into objects it has just constructed). -/
def setField (j : Json) (key : String) (v : Json) : Json :=
  match j with
  | .obj fields =>
      if fields.any (fun f => f.1 = key) then
        .obj (fields.map (fun f => if f.1 = key then (key, v) else f))
      else
        .obj (fields ++ [(key, v)])
  | _ => j

end Json

/-- The error taxonomy of `src/error.rs` (the variants the embedded code
can produce). -/
inductive AppError where
  | InvalidMethod : AppError
  | InvalidHeader : AppError
  | UnsupportedProvider : AppError
  | MissingApiKey : AppError
  | InvalidRequestFormat : AppError
  | UnsupportedModel : AppError
  | JsonError : AppError
  | AwsSigningError : AppError
  | AwsParamsError : AppError
  | RequestError : AppError
deriving DecidableEq, Repr

/-- `http::HeaderMap` modelled as an association list; names are kept
lowercase (the `http` crate normalizes header names to lowercase). -/
abbrev Headers := List (String × String)

/-- `HeaderMap::get` — first entry with the given name. -/
def headerGet (hs : Headers) (name : String) : Option String :=
  (hs.find? (fun h => h.1 = name)).map (fun h => h.2)

/-- `HeaderMap::insert` — replace the existing entry for the name in place,
or append a new entry. -/
def headerInsert (hs : Headers) (name value : String) : Headers :=
  if hs.any (fun h => h.1 = name) then
    hs.map (fun h => if h.1 = name then (name, value) else h)
  else
    hs ++ [(name, value)]

/-- `http::HeaderValue::from_str` succeeds exactly on values whose bytes are
visible ASCII / obs-text or horizontal tab. -/
def isValidHeaderValue (v : String) : Bool :=
  v.data.all (fun c => (32 ≤ c.toNat && c.toNat ≠ 127) || c = '\t')

/- ===================== C10: provider selection ===================== -/

/-- The six concrete provider variants of `src/providers/mod.rs`. -/
inductive ProviderName where
  | openai | anthropic | groq | fireworks | together | bedrock
deriving DecidableEq, Repr

/-- The lowercase identity string of each provider. -/
def providerKey : ProviderName → String
  | .openai => "openai"
  | .anthropic => "anthropic"
  | .groq => "groq"
  | .fireworks => "fireworks"
  | .together => "together"
  | .bedrock => "bedrock"

/-- `str::to_lowercase`, restricted to its ASCII action (all provider names
and their capitalization variants are ASCII). -/
def rustToLowercase (s : String) : String :=
  ⟨s.data.map Char.toLower⟩

/-- `create_provider` (src/providers/mod.rs, lines 84-97): match on the
lowercased name, unknown names yield `UnsupportedProvider`. -/
def create_provider (provider_name : String) : Except AppError ProviderName :=
  let l := rustToLowercase provider_name
  if l = "openai" then .ok .openai
  else if l = "anthropic" then .ok .anthropic
  else if l = "groq" then .ok .groq
  else if l = "fireworks" then .ok .fireworks
  else if l = "together" then .ok .together
  else if l = "bedrock" then .ok .bedrock
  else .error .UnsupportedProvider

/-- The list of supported lowercase provider names. -/
def supportedProviderNames : List String :=
  ["openai", "anthropic", "groq", "fireworks", "together", "bedrock"]

/- ===================== C1: SigV4 signing host ===================== -/

/-- The host header included in the SigV4 signature computation by
`sign_aws_request` (src/proxy/signing.rs, line 31):
`format!("{}.{}.amazonaws.com", service, region)`. -/
def sign_aws_request_host (service region : String) : String :=
  service ++ "." ++ region ++ ".amazonaws.com"

/-- The service string the pipeline passes to `sign_aws_request`
(src/proxy/mod.rs, line 63). -/
def bedrockSigningService : String := "bedrock"

/-- `BedrockProvider::get_signing_host` (src/providers/bedrock.rs,
lines 469-472). -/
def get_signing_host (region : String) : String :=
  "bedrock-runtime." ++ region ++ ".amazonaws.com"

/- ============ C4 / C5: credential header processing ============ -/

/-- One unfolding step of `str::trim_start_matches`: if `pat` is a prefix of
`s`, return the remainder, else `none`. -/
def dropPre : List Char → List Char → Option (List Char)
  | [], s => some s
  | _ :: _, [] => none
  | p :: ps, c :: cs => if p = c then dropPre ps cs else none

/-- Fuel-bounded worker for `trim_start_matches`: repeatedly strip the
pattern while it is a (strictly shortening) prefix. `s.length` fuel always
suffices since each strip of a non-empty pattern shortens the string. -/
def trimStartAux : Nat → List Char → List Char → List Char
  | 0, _, s => s
  | fuel + 1, pat, s =>
    match dropPre pat s with
    | some rest => if rest.length < s.length then trimStartAux fuel pat rest else s
    | none => s

/-- `str::trim_start_matches(pat)` — remove all leading occurrences of the
pattern. -/
def trimStartMatches (pat s : String) : String :=
  ⟨trimStartAux s.data.length pat.data s.data⟩

/-- `AnthropicProvider::process_headers` (src/providers/anthropic.rs,
lines 50-89): build a fresh outbound header map holding `content-type`,
`anthropic-version`, and the credential moved from `authorization` into
`x-api-key` with the `Bearer ` prefix stripped; a missing credential is
`MissingApiKey`, a credential that is not a valid header value is
`InvalidHeader`. -/
def anthropic_process_headers (original : Headers) : Except AppError Headers :=
  match headerGet original "authorization" with
  | some auth =>
      let api_key := trimStartMatches "Bearer " auth
      if isValidHeaderValue api_key then
        .ok [("content-type", "application/json"),
             ("anthropic-version", "2023-06-01"),
             ("x-api-key", api_key)]
      else .error .InvalidHeader
  | none => .error .MissingApiKey

/-- `OpenAIProvider::process_headers` (src/providers/openai.rs,
lines 32-75): `x-magicapi-api-key` is consulted first and converted to a
`Bearer` credential; the caller's `authorization` header is passed through
only when `x-magicapi-api-key` is absent. -/
def openai_process_headers (original : Headers) : Except AppError Headers :=
  match headerGet original "x-magicapi-api-key" with
  | some api_key =>
      let bearer := "Bearer " ++ api_key
      if isValidHeaderValue bearer then
        .ok [("content-type", "application/json"), ("authorization", bearer)]
      else .error .InvalidHeader
  | none =>
      match headerGet original "authorization" with
      | some auth =>
          if isValidHeaderValue auth then
            .ok [("content-type", "application/json"), ("authorization", auth)]
          else .error .InvalidHeader
      | none => .error .MissingApiKey

/- ============ C7: Elasticsearch exporter retry loop ============ -/

/-- Outcome of one attempt to index a document in Elasticsearch, as
distinguished by `send_metrics` (src/telemetry/plugins/elasticsearch.rs,
lines 68-127). -/
inductive EsOutcome where
  | success : EsOutcome
  /-- a 2xx-free 4xx answer (`Client error from Elasticsearch`) -/
  | clientErr : EsOutcome
  /-- a 5xx answer (`Server error from Elasticsearch`) -/
  | serverErr : EsOutcome
  /-- transport failure or the 10 s timeout -/
  | transportErr : EsOutcome
deriving DecidableEq, Repr

/-- Every non-success arm of the closure returns `Err(...)`, including the
4xx arm (the comment says "Don't retry for 4xx errors" but the arm still
returns `Err`, which `tokio_retry::Retry` retries like any other error). -/
def attemptFails : EsOutcome → Bool
  | .success => false
  | _ => true

/-- `tokio_retry::Retry::spawn` with a delay strategy of `n` remaining
delays, fed with the outcome Elasticsearch produces for each successive
attempt: run an attempt, and while it fails and a delay remains, sleep and
run the next one. Returns the number of attempts executed. -/
def runRetry : Nat → List EsOutcome → Nat
  | _, [] => 0
  | retries, outcome :: rest =>
    if attemptFails outcome then
      match retries with
      | 0 => 1
      | n + 1 => 1 + runRetry n rest
    else 1

/-- `send_metrics` uses `ExponentialBackoff::from_millis(100).map(jitter)
.take(3)`: three delays, hence one initial attempt plus up to three
retries. `outcomes` lists the outcome of each successive attempt. -/
def send_metrics_attempts (outcomes : List EsOutcome) : Nat :=
  runRetry 3 outcomes

/- ========= C2: Anthropic streaming metrics and the token slot ========= -/

/-- Substring test: does `s` contain `pat`? (`str::contains`). -/
def subListAt : List Char → List Char → Bool
  | [], _ => true
  | _ :: _, [] => false
  | p :: ps, c :: cs => p = c && subListAt ps cs

/-- Worker for `rustContains`. -/
def rustContainsAux : List Char → List Char → Bool
  | pat, [] => pat.isEmpty
  | pat, c :: rest => subListAt pat (c :: rest) || rustContainsAux pat rest

/-- `str::contains(pat)` for string patterns. -/
def rustContains (s pat : String) : Bool :=
  rustContainsAux pat.data s.data

/-- `ProviderMetrics` (src/telemetry/provider_metrics.rs, lines 10-18, plus
the `request_id` field carried by the provider-local extractors); cost is an
`f64` in the source, carried here as an exact rational. `provider_latency`
is omitted: no claim concerns it and it is always zero in the embedded
paths. -/
structure ProviderMetricsRec where
  input_tokens : Option Nat := none
  output_tokens : Option Nat := none
  total_tokens : Option Nat := none
  cost : Option Rat := none
  model : String := ""
  request_id : Option String := none
deriving DecidableEq, Repr

/-- `calculate_anthropic_cost` (src/providers/anthropic.rs, lines 345-373). -/
def calculate_anthropic_cost (model : String) (total_tokens : Nat) : Rat :=
  let tokens : Rat := total_tokens
  if rustContains model "claude-3.5-sonnet" then tokens * 0.000003
  else if rustContains model "claude-3-opus" then tokens * 0.000015
  else if rustContains model "claude-3-sonnet" then tokens * 0.000003
  else if rustContains model "claude-3-haiku" then tokens * 0.000000125
  else if rustContains model "claude-2" then tokens * 0.000008
  else if rustContains model "claude-instant" then tokens * 0.000001
  else if rustContains model "claude-3" then tokens * 0.000003
  else if rustContains model "claude" then tokens * 0.000002
  else tokens * 0.000002

/-- `AnthropicMetricsExtractor::try_extract_provider_specific_streaming_metrics`
(src/providers/anthropic.rs, lines 267-341). The Rust code reads and writes
the `thread_local! ANTHROPIC_INPUT_TOKENS` slot (lines 16-18); the slot is
passed in and returned explicitly here, so that its sharing across requests
served by the same worker thread can be stated. The chunk is taken already
JSON-parsed (an unparseable chunk returns `None` and leaves the slot
untouched). -/
def anthropic_try_extract_streaming (slot : Option Nat) (chunk : Json) :
    Option Nat × Option ProviderMetricsRec :=
  match (chunk.get "type").bind Json.asStr with
  | none => (slot, none)
  | some event_type =>
    let model := (((chunk.get "message").bind (fun m => m.get "model")).bind Json.asStr).getD "claude"
    let base : ProviderMetricsRec := { model := model }
    if event_type = "message_start" then
      match chunk.get "message" with
      | some message =>
        let m1 := { base with request_id := (message.get "id").bind Json.asStr }
        match ((message.get "usage").bind (fun u => u.get "input_tokens")).bind Json.asU64 with
        | some input_tokens =>
            (some input_tokens, some { m1 with input_tokens := some input_tokens })
        | none => (slot, none)
      | none => (slot, none)
    else if event_type = "message_delta" ∧ (chunk.get "usage").isSome = true then
      match ((chunk.get "usage").bind (fun u => u.get "output_tokens")).bind Json.asU64 with
      | some output =>
        match slot with
        | some input =>
            (slot, some { base with
              output_tokens := some output,
              input_tokens := some input,
              total_tokens := some (input + output),
              cost := some (calculate_anthropic_cost model (input + output)) })
        | none =>
            (slot, some { base with
              output_tokens := some output,
              input_tokens := none,
              total_tokens := some output,
              cost := some (calculate_anthropic_cost model output) })
      | none => (slot, none)
    else (slot, none)

/-- A `message_start` event of one request (call it request A), reporting
42 input tokens. -/
def msgStartA : Json :=
  .obj [("type", .str "message_start"),
        ("message", .obj [("id", .str "msg_A"),
                          ("model", .str "claude-3-opus-20240229"),
                          ("usage", .obj [("input_tokens", .num 42)])])]

/-- A `message_delta` event of a different request (request B), reporting
7 output tokens; request B has produced no `message_start` yet. -/
def msgDeltaB : Json :=
  .obj [("type", .str "message_delta"),
        ("usage", .obj [("output_tokens", .num 7)])]

/-- The value the thread slot holds after request A\'s `message_start` has
been processed on some worker thread. -/
def slotAfterA : Option Nat :=
  (anthropic_try_extract_streaming none msgStartA).1

/- ============ C3: x-request-id on proxied responses ============ -/

/-- The header-copying part of the pipeline\'s `process_response`
(src/proxy/mod.rs, lines 127-136 and 181-187, non-streaming branch): every
upstream header is inserted into the response header map; nothing is
synthesized. -/
def proxy_copy_response_headers (upstream : Headers) : Headers :=
  upstream.foldl (fun acc h => headerInsert acc h.1 h.2) []

/-- `Provider::process_response` default implementation
(src/providers/mod.rs, lines 30-33) is the identity; `OpenAIProvider` does
not override it, so an OpenAI response passes through unchanged. -/
def openai_process_response_headers (resp : Headers) : Headers :=
  resp

/-- Headers of a unary OpenAI response as returned by the pipeline. -/
def openai_unary_pipeline_headers (upstream : Headers) : Headers :=
  openai_process_response_headers (proxy_copy_response_headers upstream)

/-- The unary (non-streaming) branch of `TogetherProvider::process_response`
(src/providers/together.rs, lines 112-145): keep an upstream `x-request-id`;
otherwise, for a JSON body, copy the body\'s `id` or insert the freshly
generated `req_<uuid>` identifier (`generated_id` stands for
`format!("req_..", Uuid::new_v4().simple())`); a non-JSON body is returned
untouched. -/
def together_process_response_headers
    (headers : Headers) (body : Option Json) (generated_id : String) : Headers :=
  if (headerGet headers "x-request-id").isSome then headers
  else
    match body with
    | some json =>
      match (json.get "id").bind Json.asStr with
      | some id =>
          if isValidHeaderValue id then headerInsert headers "x-request-id" id
          else headers
      | none =>
          if isValidHeaderValue generated_id then
            headerInsert headers "x-request-id" generated_id
          else headers
    | none => headers

/- ===================== theorems ===================== -/

/-- Claim C10: provider selection is case-insensitive: `create_provider`
lowercases the requested name before matching, every capitalization variant
of the six supported names resolves to the corresponding provider, and the
result is the `UnsupportedProvider` error exactly when the lowercased name
is not one of the six. -/
theorem create_provider_case_insensitive (s : String) :
    (∀ p : ProviderName,
      create_provider s = .ok p ↔ rustToLowercase s = providerKey p)
    ∧ (create_provider s = .error .UnsupportedProvider ↔
        rustToLowercase s ∉ supportedProviderNames) := by
  constructor
  · intro p
    unfold create_provider
    cases p <;>
      simp only [providerKey, supportedProviderNames] <;>
      split_ifs <;>
      simp_all
  · unfold create_provider
    simp only [supportedProviderNames]
    split_ifs <;> simp_all

/-- Concrete checks of C10 on capitalization variants. -/
theorem create_provider_case_insensitive_witness :
    create_provider "OpenAI" = .ok .openai
    ∧ create_provider "BEDROCK" = .ok .bedrock
    ∧ create_provider "gpt4all" = .error .UnsupportedProvider :=
  ⟨((create_provider_case_insensitive "OpenAI").1 ProviderName.openai).mpr rfl,
   ((create_provider_case_insensitive "BEDROCK").1 ProviderName.bedrock).mpr rfl,
   (create_provider_case_insensitive "gpt4all").2.mpr (by decide)⟩

/-- Claim C1 is false on the code: for a signed Bedrock request in region
us-east-1, the host included in the SigV4 signature computation is
`bedrock.us-east-1.amazonaws.com` (built from the service string `"bedrock"`
passed by the pipeline), which differs from
`get_signing_host() = bedrock-runtime.us-east-1.amazonaws.com`. -/
theorem signed_host_ne_get_signing_host :
    sign_aws_request_host bedrockSigningService "us-east-1"
      = "bedrock.us-east-1.amazonaws.com"
    ∧ get_signing_host "us-east-1"
      = "bedrock-runtime.us-east-1.amazonaws.com"
    ∧ sign_aws_request_host bedrockSigningService "us-east-1"
      ≠ get_signing_host "us-east-1" := by
  refine ⟨rfl, rfl, ?_⟩
  decide

/-- Claim C4: for every Anthropic request on which `process_headers`
succeeds, the outbound header map contains exactly one credential header,
named `x-api-key` and holding the caller's token with the `Bearer ` prefix
stripped (via `trim_start_matches`), and never contains an `authorization`
header. -/
theorem anthropic_single_credential_header (original out : Headers)
    (h : anthropic_process_headers original = .ok out) :
    headerGet out "authorization" = none
    ∧ (out.filter (fun hd => hd.1 = "x-api-key" ∨ hd.1 = "authorization")).length = 1
    ∧ ∃ auth, headerGet original "authorization" = some auth
        ∧ headerGet out "x-api-key" = some (trimStartMatches "Bearer " auth) := by
  unfold anthropic_process_headers at h
  cases hget : headerGet original "authorization" <;> simp only [hget] at h
  · simp at h
  case some auth =>
    by_cases hv : isValidHeaderValue (trimStartMatches "Bearer " auth) = true
    · simp only [hv, if_true] at h
      cases h
      refine ⟨by simp [headerGet, List.find?], by rfl, auth, rfl, ?_⟩
      simp [headerGet, List.find?]
    · simp only [if_neg hv] at h
      simp at h

/-- Concrete instance of C4 at a request carrying
`authorization: Bearer sk-ant-123`. -/
theorem anthropic_single_credential_header_witness :
    headerGet [("content-type", "application/json"),
               ("anthropic-version", "2023-06-01"),
               ("x-api-key", "sk-ant-123")] "authorization" = none
    ∧ (([("content-type", "application/json"),
         ("anthropic-version", "2023-06-01"),
         ("x-api-key", "sk-ant-123")] : Headers).filter
          (fun hd => hd.1 = "x-api-key" ∨ hd.1 = "authorization")).length = 1
    ∧ ∃ auth,
        headerGet [("authorization", "Bearer sk-ant-123")] "authorization" = some auth
        ∧ headerGet [("content-type", "application/json"),
                     ("anthropic-version", "2023-06-01"),
                     ("x-api-key", "sk-ant-123")] "x-api-key"
            = some (trimStartMatches "Bearer " auth) :=
  anthropic_single_credential_header
    [("authorization", "Bearer sk-ant-123")]
    [("content-type", "application/json"),
     ("anthropic-version", "2023-06-01"),
     ("x-api-key", "sk-ant-123")]
    rfl

/-- Claim C5 is false on the code: when the caller supplies both an
`authorization` header (`Bearer A`) and an `x-magicapi-api-key` header
(`B`), the outbound `authorization` header is `Bearer B`, not the
caller-supplied `Bearer A` — `x-magicapi-api-key` takes precedence, it is
not a fallback. -/
theorem openai_magicapi_precedence_cex :
    openai_process_headers [("authorization", "Bearer A"), ("x-magicapi-api-key", "B")]
      = .ok [("content-type", "application/json"), ("authorization", "Bearer B")]
    ∧ ("Bearer B" : String) ≠ "Bearer A" := by
  refine ⟨rfl, by decide⟩

/-- Claim C5 as amended: the `authorization` header is passed through
verbatim only when `x-magicapi-api-key` is absent; when `x-magicapi-api-key`
is present it takes precedence and is converted to `Bearer <key>`. -/
theorem openai_credential_precedence (original : Headers) :
    (∀ auth, headerGet original "x-magicapi-api-key" = none →
      headerGet original "authorization" = some auth →
      isValidHeaderValue auth = true →
      openai_process_headers original
        = .ok [("content-type", "application/json"), ("authorization", auth)])
    ∧ (∀ api_key, headerGet original "x-magicapi-api-key" = some api_key →
      isValidHeaderValue ("Bearer " ++ api_key) = true →
      openai_process_headers original
        = .ok [("content-type", "application/json"),
               ("authorization", "Bearer " ++ api_key)]) := by
  constructor
  · intro auth hmagic hauth hvalid
    unfold openai_process_headers
    simp only [hmagic, hauth, hvalid, if_true]
  · intro api_key hmagic hvalid
    unfold openai_process_headers
    simp only [hmagic, hvalid, if_true]

/-- Concrete instance of the amended C5: with only `authorization: Bearer A`
present, the credential is passed through verbatim. -/
theorem openai_credential_precedence_witness :
    openai_process_headers [("authorization", "Bearer A")]
      = .ok [("content-type", "application/json"), ("authorization", "Bearer A")] :=
  (openai_credential_precedence [("authorization", "Bearer A")]).1
    "Bearer A" rfl rfl rfl

/-- Claim C7 is false on the code (and the code contradicts its own
comments): a document answered with a 4xx on every attempt is tried 4 times
(`tokio_retry::Retry` retries every `Err`, and the 4xx arm returns `Err`;
`take(3)` bounds the retries, so 1 initial attempt + 3 retries), where the
claim demands a single attempt for 4xx and at most 3 attempts in total. -/
theorem es_exporter_retries_client_errors :
    send_metrics_attempts [.clientErr, .clientErr, .clientErr, .clientErr] = 4
    ∧ send_metrics_attempts [.serverErr, .serverErr, .serverErr, .serverErr] = 4
    ∧ send_metrics_attempts [.clientErr, .success] = 2 := by
  refine ⟨rfl, rfl, rfl⟩

/-- Claim C2 is false on the code: the slot holding `input_tokens`
(`ANTHROPIC_INPUT_TOKENS`) is a `thread_local!` static shared by every
request served on the same worker thread, not a request-scoped slot. After
request A's `message_start` (42 input tokens) is processed on a thread, a
`message_delta` of a different request B on the same thread is combined
with request A's input tokens (input 42, total 49), whereas a
request-scoped slot would yield no input tokens for B (total 7). -/
theorem anthropic_input_token_slot_shared_across_requests :
    slotAfterA = some 42
    ∧ ((anthropic_try_extract_streaming slotAfterA msgDeltaB).2.map
        (fun m => (m.input_tokens, m.output_tokens, m.total_tokens)))
        = some (some 42, some 7, some 49)
    ∧ ((anthropic_try_extract_streaming none msgDeltaB).2.map
        (fun m => (m.input_tokens, m.output_tokens, m.total_tokens)))
        = some (none, some 7, some 7) := by
  refine ⟨rfl, rfl, rfl⟩

/-- Claim C3 is false on the code: a unary OpenAI response whose upstream
set no `x-request-id` header is returned by the pipeline without an
`x-request-id` header — the pipeline's `process_response` only copies
upstream headers and the OpenAI provider's `process_response` is the
identity; nothing synthesizes the header. -/
theorem xrequestid_not_always_set_cex :
    headerGet (openai_unary_pipeline_headers [("content-type", "application/json")])
      "x-request-id" = none := by
  rfl

/-- Inserting a header absent from the map makes it retrievable. -/
theorem headerGet_insert_self (hs : Headers) (name value : String)
    (h : headerGet hs name = none) :
    headerGet (headerInsert hs name value) name = some value := by
  have hfind : hs.find? (fun hd => hd.1 = name) = none := by
    unfold headerGet at h
    exact Option.map_eq_none'.mp h
  have hnotany : hs.any (fun hd => hd.1 = name) = false := by
    rw [List.any_eq_false]
    intro x hx
    rw [List.find?_eq_none] at hfind
    exact hfind x hx
  unfold headerInsert
  rw [hnotany]
  simp only [Bool.false_eq_true, if_false]
  unfold headerGet
  rw [List.find?_append, hfind]
  simp [List.find?]

/-- Claim C3 as amended: the `x-request-id` header is guaranteed only where
a provider sets it. For the Together provider's unary JSON path, a response
with no upstream `x-request-id` and no body `id` field receives the
synthesized `req_<uuid>` identifier. -/
theorem together_unary_synthesizes_request_id
    (headers : Headers) (body : Json) (generated_id : String)
    (h1 : headerGet headers "x-request-id" = none)
    (h2 : body.get "id" = none)
    (h3 : isValidHeaderValue generated_id = true) :
    headerGet (together_process_response_headers headers (some body) generated_id)
      "x-request-id" = some generated_id := by
  unfold together_process_response_headers
  rw [h1]
  simp only [Option.isSome_none, Bool.false_eq_true, if_false]
  rw [h2]
  simp only [Option.bind_eq_bind, Option.none_bind, h3, if_true]
  exact headerGet_insert_self headers _ _ h1

/-- Concrete instance of the amended C3 at an upstream response with no
request id and a JSON body with no `id`. -/
theorem together_unary_synthesizes_request_id_witness :
    headerGet (together_process_response_headers
        [("content-type", "application/json")]
        (some (Json.obj [("object", Json.str "chat.completion")]))
        "req_7f9c2f40ab614f2e")
      "x-request-id" = some "req_7f9c2f40ab614f2e" :=
  together_unary_synthesizes_request_id
    [("content-type", "application/json")]
    (Json.obj [("object", Json.str "chat.completion")])
    "req_7f9c2f40ab614f2e" rfl rfl rfl

/- ========= C6: Anthropic unary response transformation ========= -/

/-- Concatenation of the `text` fields of a content array, in order
(src/providers/anthropic.rs, lines 378-386). -/
def concatTexts (items : List Json) : String :=
  items.foldl (fun text item =>
    match (item.get "text").bind Json.asStr with
    | some item_text => text ++ item_text
    | none => text) ""

/-- The `content` string of `transform_anthropic_to_openai_format`
(src/providers/anthropic.rs, lines 377-390): concatenate the texts of the
content array, falling back to `content` as a plain string, defaulting to
the empty string. -/
def anthropicConcatContent (resp : Json) : String :=
  match (resp.get "content").bind Json.asArr with
  | some content_array => concatTexts content_array
  | none => (((resp.get "content").bind Json.asStr).getD "")

/-- The `usage` object of `transform_anthropic_to_openai_format`
(src/providers/anthropic.rs, lines 392-418): prompt/completion tokens
copied from `input_tokens`/`output_tokens` (default 0), and
`total_tokens` recomputed as their sum. -/
def anthropicUsageToOpenai (resp : Json) : Json :=
  match resp.get "usage" with
  | some anthropic_usage =>
      let prompt_tokens := ((anthropic_usage.get "input_tokens").bind Json.asU64).getD 0
      let completion_tokens := ((anthropic_usage.get "output_tokens").bind Json.asU64).getD 0
      .obj [("prompt_tokens", .num prompt_tokens),
            ("completion_tokens", .num completion_tokens),
            ("total_tokens", .num (prompt_tokens + completion_tokens))]
  | none =>
      .obj [("prompt_tokens", .num 0),
            ("completion_tokens", .num 0),
            ("total_tokens", .num 0)]

/-- The `finish_reason` mapping of `transform_anthropic_to_openai_format`
(src/providers/anthropic.rs, lines 420-427): `end_turn` and `stop_sequence`
map to `stop`, `max_tokens` to `length`, any other present string value is
passed through verbatim, and an absent (or non-string) `stop_reason`
defaults to `stop`. -/
def anthropicFinishReason (resp : Json) : String :=
  match (resp.get "stop_reason").bind Json.asStr with
  | some "end_turn" => "stop"
  | some "max_tokens" => "length"
  | some "stop_sequence" => "stop"
  | some reason => reason
  | none => "stop"

/-- Rendering of a JSON number for `json!(seed.to_string())`
(src/providers/anthropic.rs, line 455); the exact decimal rendering is
irrelevant to every claim and is abstracted by `toString`. -/
def jsonNumToString (q : Rat) : String :=
  toString q

/-- The per-choice seed assignment (src/providers/anthropic.rs,
lines 450-461): a numeric seed is stringified, anything else is copied. -/
def addSeed (seed choice : Json) : Json :=
  match seed with
  | .num q => choice.setField "seed" (.str (jsonNumToString q))
  | _ => choice.setField "seed" seed

/-- `transform_anthropic_to_openai_format` (src/providers/anthropic.rs,
lines 376-465). `now` is the current unix timestamp
(`chrono::Utc::now().timestamp()`), passed explicitly. -/
def transform_anthropic_to_openai_format (now : Int) (resp : Json) : Json :=
  let content := anthropicConcatContent resp
  let transformed := Json.obj [
    ("id", (resp.get "id").getD .null),
    ("object", .str "chat.completion"),
    ("created", .num now),
    ("model", (resp.get "model").getD .null),
    ("type", (resp.get "type").getD (.str "message")),
    ("role", (resp.get "role").getD (.str "assistant")),
    ("choices", .arr [Json.obj [
        ("index", .num 0),
        ("message", .obj [
            ("role", (resp.get "role").getD (.str "assistant")),
            ("content", .str content)]),
        ("finish_reason", .str (anthropicFinishReason resp))]]),
    ("usage", anthropicUsageToOpenai resp),
    ("system_fingerprint",
      .str ("anthropic-" ++ (((resp.get "model").bind Json.asStr).getD "claude")))]
  match resp.get "seed" with
  | some seed =>
      match transformed.get "choices" with
      | some (.arr choices) =>
          transformed.setField "choices" (.arr (choices.map (addSeed seed)))
      | _ => transformed
  | none => transformed

/-- Field access into the first element of `choices`. -/
def choice0Field (j : Json) (field : String) : Option Json :=
  (((j.get "choices").bind Json.asArr).bind List.head?).bind (fun c => c.get field)

/-- An Anthropic response whose `stop_reason` is `tool_use`. -/
def anthropicToolUseResp : Json :=
  .obj [("content", .arr [.obj [("type", .str "text"), ("text", .str "hi")]]),
        ("stop_reason", .str "tool_use")]

/-- Structure of `choices[0]` in the transformed response: the message
content is the concatenated content text and the finish reason is the
mapped stop reason (the optional seed assignment touches neither). -/
theorem transform_anthropic_choice0 (now : Int) (resp : Json) :
    ((choice0Field (transform_anthropic_to_openai_format now resp) "message").bind
        (fun m => m.get "content")) = some (.str (anthropicConcatContent resp))
    ∧ choice0Field (transform_anthropic_to_openai_format now resp) "finish_reason"
        = some (.str (anthropicFinishReason resp)) := by
  unfold transform_anthropic_to_openai_format
  cases hs : resp.get "seed" with
  | none => exact ⟨rfl, rfl⟩
  | some seed => cases seed <;> exact ⟨rfl, rfl⟩

/-- Claim C6 is false on the code: for a response whose `stop_reason` is
`tool_use` (any value other than `end_turn`, `max_tokens`,
`stop_sequence`), the transformed `finish_reason` is the pass-through value
`tool_use`, not the `stop` the claim demands for "every other value". -/
theorem anthropic_finish_reason_passthrough_cex :
    choice0Field (transform_anthropic_to_openai_format 0 anthropicToolUseResp)
        "finish_reason" = some (.str "tool_use")
    ∧ ("tool_use" : String) ≠ "stop" := by
  exact ⟨(transform_anthropic_choice0 0 anthropicToolUseResp).2, by decide⟩

/-- Claim C6 as amended: `choices[0].message.content` is the in-order
concatenation of all `content[].text` strings, and `finish_reason` is
`stop` for `end_turn` and `stop_sequence`, `length` for `max_tokens`,
the `stop_reason` value itself for any other present string value, and
`stop` when `stop_reason` is absent (`anthropicFinishReason`). -/
theorem anthropic_unary_transform_content_finish (now : Int) (resp : Json) :
    (∀ items, resp.get "content" = some (.arr items) →
      ((choice0Field (transform_anthropic_to_openai_format now resp) "message").bind
        (fun m => m.get "content")) = some (.str (concatTexts items)))
    ∧ choice0Field (transform_anthropic_to_openai_format now resp) "finish_reason"
        = some (.str (anthropicFinishReason resp)) := by
  refine ⟨?_, (transform_anthropic_choice0 now resp).2⟩
  intro items hc
  rw [(transform_anthropic_choice0 now resp).1]
  unfold anthropicConcatContent
  rw [hc]
  rfl

/-- Concrete instance of the amended C6: a two-block `end_turn` response
transforms to the concatenated content. -/
theorem anthropic_unary_transform_content_finish_witness :
    ((choice0Field (transform_anthropic_to_openai_format 0
        (Json.obj [("content", Json.arr
            [Json.obj [("type", Json.str "text"), ("text", Json.str "Hello")],
             Json.obj [("type", Json.str "text"), ("text", Json.str ", world")]]),
          ("stop_reason", Json.str "end_turn")])) "message").bind
      (fun m => m.get "content"))
      = some (.str (concatTexts
          [Json.obj [("type", Json.str "text"), ("text", Json.str "Hello")],
           Json.obj [("type", Json.str "text"), ("text", Json.str ", world")]]))
    ∧ concatTexts
          [Json.obj [("type", Json.str "text"), ("text", Json.str "Hello")],
           Json.obj [("type", Json.str "text"), ("text", Json.str ", world")]]
        = "Hello, world" := by
  exact ⟨(anthropic_unary_transform_content_finish 0 _).1 _ rfl, rfl⟩

/- ========= C9: Bedrock request-body transformation ========= -/

/-- One message-folding step of `transform_request_body`
(src/providers/bedrock.rs, lines 94-106): system messages accumulate into
`system`, all other roles into `messages`, with `content` wrapped into a
one-element text block. -/
def bedrockMsgStep (acc : List Json × List Json) (msg : Json) :
    List Json × List Json :=
  let role := ((msg.index "role").asStr).getD "user"
  let content := ((msg.index "content").asStr).getD ""
  if role = "system" then
    (acc.1, acc.2 ++ [Json.obj [("text", .str content)]])
  else
    (acc.1 ++ [Json.obj [("role", .str role),
                         ("content", .arr [Json.obj [("text", .str content)]])]],
     acc.2)

/-- `BedrockProvider::transform_request_body` (src/providers/bedrock.rs,
lines 75-126): a body already carrying `inferenceConfig` is returned
unchanged; otherwise the OpenAI chat shape is rewritten to the Bedrock
`converse` shape with defaults maxTokens 1000, temperature 0.7, topP 1.0,
and a missing `messages` array is `InvalidRequestFormat`. -/
def transform_request_body (body : Json) : Except AppError Json :=
  if (body.get "inferenceConfig").isSome then .ok body
  else
    match (body.get "messages").bind Json.asArr with
    | none => .error .InvalidRequestFormat
    | some messages =>
      let acc := messages.foldl bedrockMsgStep ([], [])
      .ok (Json.obj [
        ("messages", .arr acc.1),
        ("system", .arr acc.2),
        ("inferenceConfig", .obj [
          ("maxTokens",
            .num ((((body.get "max_tokens").bind Json.asU64).getD 1000 : Nat) : Rat)),
          ("temperature",
            .num (((body.get "temperature").bind Json.asF64).getD 0.7)),
          ("topP",
            .num (((body.get "top_p").bind Json.asF64).getD 1))])])

/- ========= C8: token totals in RequestMetrics ========= -/

/-- `calculate_cost` (src/telemetry/provider_metrics.rs, lines 247-253). -/
def calculate_cost (model : String) (total_tokens : Nat) : Rat :=
  if rustContains model "gpt-4" then (total_tokens : Rat) * 0.00003
  else if rustContains model "gpt-3.5" then (total_tokens : Rat) * 0.000002
  else 0

/-- `v as u32` — truncation of a `u64` value to 32 bits, applied by every
extractor when narrowing `as_u64()` results into the `u32` token fields. -/
def toU32 (n : Nat) : Nat :=
  n % 2 ^ 32

/-- `OpenAIMetricsExtractor::extract_metrics`
(src/telemetry/provider_metrics.rs, lines 189-215): the three token fields
are copied from the upstream `usage` object via
`.and_then(|v| v.as_u64()).map(|v| v as u32)` — truncated to `u32`, but
never checked or recomputed against each other. -/
def openai_extract_metrics (response_body : Json) : ProviderMetricsRec :=
  let m0 : ProviderMetricsRec := {}
  let m1 :=
    match response_body.get "usage" with
    | some usage =>
        { m0 with
          input_tokens := ((usage.get "prompt_tokens").bind Json.asU64).map toU32,
          output_tokens := ((usage.get "completion_tokens").bind Json.asU64).map toU32,
          total_tokens := ((usage.get "total_tokens").bind Json.asU64).map toU32 }
    | none => m0
  let m2 :=
    match (response_body.get "model").bind Json.asStr with
    | some model => { m1 with model := model }
    | none => m1
  match m2.total_tokens, response_body.get "model" with
  | some total_tokens, some model =>
      { m2 with cost := some (calculate_cost ((model.asStr).getD "") total_tokens) }
  | _, _ => m2

/-- `AnthropicMetricsExtractor::extract_metrics` — the extractor selected by
`get_metrics_extractor "anthropic"` (src/telemetry/provider_metrics.rs,
lines 258-281): input/output tokens are narrowed to `u32` via `as u32`, and
`total_tokens` is always recomputed as
`input_tokens.unwrap_or(0) + output_tokens.unwrap_or(0)` — a wrapping
(mod 2^32) `u32` addition. -/
def anthropic_unary_extract_metrics (response_body : Json) : ProviderMetricsRec :=
  let m0 : ProviderMetricsRec := {}
  let m1 :=
    match response_body.get "usage" with
    | some usage =>
        let it := ((usage.get "input_tokens").bind Json.asU64).map toU32
        let ot := ((usage.get "output_tokens").bind Json.asU64).map toU32
        { m0 with input_tokens := it, output_tokens := ot,
                  total_tokens := some (toU32 (it.getD 0 + ot.getD 0)) }
    | none => m0
  match (response_body.get "model").bind Json.asStr with
  | some model => { m1 with model := model }
  | none => m1

/-- The token fields of a `RequestMetrics` record
(src/telemetry/mod.rs / middleware.rs). -/
structure RequestMetricsTokens where
  input_tokens : Option Nat
  output_tokens : Option Nat
  total_tokens : Option Nat
deriving DecidableEq, Repr

/-- `handle_regular_response` (src/telemetry/middleware.rs, lines 183-206):
the token fields of the `RequestMetrics` record handed to the registry are
copied verbatim from the extractor's `ProviderMetrics`. -/
def handle_regular_response_tokens (pm : ProviderMetricsRec) : RequestMetricsTokens :=
  { input_tokens := pm.input_tokens,
    output_tokens := pm.output_tokens,
    total_tokens := pm.total_tokens }

/-- The token fields handed to the registry for a unary OpenAI response. -/
def openai_regular_request_tokens (response_body : Json) : RequestMetricsTokens :=
  handle_regular_response_tokens (openai_extract_metrics response_body)

/-- A response body whose upstream `usage` object reports an inconsistent
total. -/
def inconsistentUsageBody : Json :=
  .obj [("usage", .obj [("prompt_tokens", .num 1),
                        ("completion_tokens", .num 1),
                        ("total_tokens", .num 100)])]

/-- Claim C9: the Bedrock request-body transformation is idempotent — every
successful output carries `inferenceConfig`, and every input already
carrying `inferenceConfig` is returned unchanged (even with no `messages`
array), so applying the transformation to its own output returns the output
unchanged. -/
theorem bedrock_transform_idempotent (body : Json) :
    (∀ body', transform_request_body body = .ok body' →
      ((body'.get "inferenceConfig").isSome = true
        ∧ transform_request_body body' = .ok body'))
    ∧ ((body.get "inferenceConfig").isSome = true →
        transform_request_body body = .ok body) := by
  constructor
  · intro body' h
    unfold transform_request_body at h
    by_cases hic : (body.get "inferenceConfig").isSome = true
    · rw [if_pos hic] at h
      cases h
      exact ⟨hic, by simp [transform_request_body, hic]⟩
    · rw [if_neg hic] at h
      cases hm : (body.get "messages").bind Json.asArr with
      | none =>
        simp only [hm] at h
        exact absurd h (by simp)
      | some messages =>
        simp only [hm] at h
        cases h
        exact ⟨rfl, rfl⟩
  · intro hic
    simp [transform_request_body, hic]

/-- Concrete instance of C9: a two-message OpenAI-shaped chat body
transforms to the `converse` shape, which then passes through unchanged. -/
theorem bedrock_transform_idempotent_witness :
    (((Json.obj [
        ("messages", .arr [.obj [("role", .str "user"),
            ("content", .arr [.obj [("text", .str "u")]])]]),
        ("system", .arr [.obj [("text", .str "s")]]),
        ("inferenceConfig", .obj [("maxTokens", .num 8),
            ("temperature", .num 0.7), ("topP", .num 1)])]).get
          "inferenceConfig").isSome = true
      ∧ transform_request_body (Json.obj [
        ("messages", .arr [.obj [("role", .str "user"),
            ("content", .arr [.obj [("text", .str "u")]])]]),
        ("system", .arr [.obj [("text", .str "s")]]),
        ("inferenceConfig", .obj [("maxTokens", .num 8),
            ("temperature", .num 0.7), ("topP", .num 1)])])
        = .ok (Json.obj [
        ("messages", .arr [.obj [("role", .str "user"),
            ("content", .arr [.obj [("text", .str "u")]])]]),
        ("system", .arr [.obj [("text", .str "s")]]),
        ("inferenceConfig", .obj [("maxTokens", .num 8),
            ("temperature", .num 0.7), ("topP", .num 1)])])) :=
  (bedrock_transform_idempotent (Json.obj [
      ("model", .str "amazon.titan-text-premier-v1:0"),
      ("messages", .arr [.obj [("role", .str "system"), ("content", .str "s")],
                         .obj [("role", .str "user"), ("content", .str "u")]]),
      ("max_tokens", .num 8)])).1 _ rfl

/-- Claim C8 is false on the code: a unary response whose upstream usage
object reports `prompt_tokens 1, completion_tokens 1, total_tokens 100`
yields a RequestMetrics record with all three token fields set and
`total_tokens = 100 ≠ 1 + 1` — the gateway copies the upstream totals
verbatim and never enforces the sum. -/
theorem request_metrics_total_cex :
    openai_regular_request_tokens inconsistentUsageBody
      = { input_tokens := some 1, output_tokens := some 1, total_tokens := some 100 }
    ∧ (100 : Nat) ≠ 1 + 1 := by
  exact ⟨rfl, by decide⟩

/-- Claim C8 as amended: the middleware copies the extractor's token fields
into the RequestMetrics record verbatim; the Anthropic unary extractor
recomputes `total` as the wrapping u32 sum of input and output, so
`total = input + output` whenever the sum fits in u32; the OpenAI-family
extractors copy `total_tokens` from the upstream usage object (truncated to
u32, as every token field is), so for them the sum invariant holds exactly
when the upstream usage, as truncated, is consistent. -/
theorem request_metrics_total_consistency :
    (∀ pm, handle_regular_response_tokens pm
        = { input_tokens := pm.input_tokens, output_tokens := pm.output_tokens,
            total_tokens := pm.total_tokens })
    ∧ (∀ body i o t,
        (anthropic_unary_extract_metrics body).input_tokens = some i →
        (anthropic_unary_extract_metrics body).output_tokens = some o →
        (anthropic_unary_extract_metrics body).total_tokens = some t →
        (t = toU32 (i + o) ∧ (i + o < 2 ^ 32 → t = i + o)))
    ∧ (∀ body usage, body.get "usage" = some usage →
        (openai_extract_metrics body).total_tokens
          = ((usage.get "total_tokens").bind Json.asU64).map toU32) := by
  refine ⟨fun pm => rfl, ?_, ?_⟩
  · intro body i o t hi ho ht
    unfold anthropic_unary_extract_metrics at hi ho ht
    have key : t = toU32 (i + o) := by
      cases hu : body.get "usage" <;>
        simp only [hu] at hi ho ht <;>
          cases hmod : (body.get "model").bind Json.asStr <;>
            simp only [hmod] at hi ho ht <;>
              simp_all
    refine ⟨key, fun hlt => ?_⟩
    rw [key]
    unfold toU32
    exact Nat.mod_eq_of_lt hlt
  · intro body usage hu
    unfold openai_extract_metrics
    simp only [hu]
    cases hmod : body.get "model" with
    | none =>
      cases htt : (usage.get "total_tokens").bind Json.asU64 <;>
        simp [hmod, htt, Json.asStr]
    | some mv =>
      cases hms : mv.asStr <;>
        cases htt : (usage.get "total_tokens").bind Json.asU64 <;>
          simp [hmod, hms, htt]

/-- Concrete instances of the amended C8: the Anthropic extractor computes
2 + 3 = 5 (a sum within u32 range) on a consistent body, and the OpenAI
extractor copies the inconsistent upstream total, u32-truncated, verbatim. -/
theorem request_metrics_total_consistency_witness :
    ((5 : Nat) = toU32 (2 + 3) ∧ (2 + 3 < 2 ^ 32 → (5 : Nat) = 2 + 3))
    ∧ (openai_extract_metrics inconsistentUsageBody).total_tokens
        = (((Json.obj [("prompt_tokens", Json.num 1),
            ("completion_tokens", Json.num 1),
            ("total_tokens", Json.num 100)]).get "total_tokens").bind
              Json.asU64).map toU32 :=
  ⟨request_metrics_total_consistency.2.1
      (Json.obj [("usage", Json.obj [("input_tokens", Json.num 2),
        ("output_tokens", Json.num 3)])])
      2 3 5 rfl rfl rfl,
   request_metrics_total_consistency.2.2 inconsistentUsageBody _ rfl⟩
